import Mathlib

/-!
Verification of the facial-identification harness (alpha_prototype.py and
experiment_runner.py) against its natural-language specification.

Shallow embedding conventions:
* Python floats are modelled by real numbers; `float('inf')` is modelled by
  `⊤` in `WithTop ℝ`, so the Matcher's running best distance lives in
  `WithTop ℝ`.
* Python exceptions are modelled by `Except PyErr`; a `try/except` block is
  a `match` on the `Except` value.
* `DeepFace.represent` (the external embedding provider, including the
  `[0]["embedding"]` projection) is modelled by a fallible function
  `String → Except PyErr (List ℝ)` from image path to embedding.
* Python dicts (which iterate in insertion order) are modelled by
  association lists iterated in order.
-/

/-- A raised Python exception: either a `ValueError` raised by the harness or
by numpy, or a failure inside the external embedding provider. -/
inductive PyErr where
  | valueError (msg : String)
  | providerError (msg : String)
deriving DecidableEq, Repr

/-- The message of an exception, `str(e)` in Python. -/
def PyErr.msg : PyErr → String
  | .valueError m => m
  | .providerError m => m

/-- Model of `np.dot` on two one-dimensional arrays: the inner product when the
lengths agree, and a raised `ValueError` ("shapes not aligned") otherwise. -/
def np_dot (a b : List ℝ) : Except PyErr ℝ :=
  if a.length = b.length then .ok (List.zipWith (fun x y => x * y) a b).sum
  else .error (.valueError "shapes not aligned")

/-- Model of `np.linalg.norm` on a one-dimensional array: the square root of
the sum of squares. Total, as in numpy. -/
noncomputable def np_norm (v : List ℝ) : ℝ :=
  Real.sqrt (v.map (fun x => x ^ 2)).sum

/-- Model of `np.subtract` (the `-` operator) on two one-dimensional arrays,
including numpy broadcasting: elementwise when the lengths agree, broadcasting
when either operand has length one, and a raised `ValueError` otherwise. -/
def np_sub (a b : List ℝ) : Except PyErr (List ℝ) :=
  if a.length = b.length then .ok (List.zipWith (fun x y => x - y) a b)
  else if b.length = 1 then .ok (a.map (fun x => x - b.headI))
  else if a.length = 1 then .ok (b.map (fun y => a.headI - y))
  else .error (.valueError "operands could not be broadcast together")

/-- One entry of the template store: `{"embedding": …, "person_id": …,
"image_path": …}` from `AlphaPrototype._load_templates`. -/
structure TemplateEntry where
  embedding : List ℝ
  person_id : String
  image_path : String

/-- The `AlphaPrototype` object after a successful `__init__`:
`template_db` maps person id to the person's image paths, `template_embeddings`
maps the synthetic key `f"{person_id}_{i}"` to a template entry, and `names`
maps person id to display name (the identity mapping, set in
`_load_templates`). -/
structure AlphaPrototype where
  model_name : String
  distance_metric : String
  template_db : List (String × List String)
  template_embeddings : List (String × TemplateEntry)
  names : List (String × String)

/-- The dictionary returned by `AlphaPrototype.identify`. `distance` is
`Option` because the error path returns `None` there; a present distance can
still be `⊤` (Python `float('inf')`, the initial best distance). -/
structure MatchResult where
  person_id : Option String
  name : String
  distance : Option (WithTop ℝ)
  match_accepted : Bool

/-- `AlphaPrototype._cosine_distance`: `1 - np.dot(a, b) /
(np.linalg.norm(a) * np.linalg.norm(b))`. The only raising subterm is
`np.dot`. -/
noncomputable def AlphaPrototype.cosineDistance (a b : List ℝ) : Except PyErr ℝ :=
  match np_dot a b with
  | .error e => .error e
  | .ok d => .ok (1 - d / (np_norm a * np_norm b))

/-- `AlphaPrototype._euclidean_distance`: `np.linalg.norm(a - b)`. The only
raising subterm is the subtraction (numpy broadcasting). -/
noncomputable def AlphaPrototype.euclideanDistance (a b : List ℝ) : Except PyErr ℝ :=
  match np_sub a b with
  | .error e => .error e
  | .ok diff => .ok (np_norm diff)

/-- The metric dispatch inside `identify`'s scan loop: cosine, euclidean, or
`raise ValueError(f"Unsupported distance metric: {...}")`. -/
noncomputable def metricDistance (distance_metric : String) (q emb : List ℝ) :
    Except PyErr ℝ :=
  if distance_metric = "cosine" then AlphaPrototype.cosineDistance q emb
  else if distance_metric = "euclidean" then AlphaPrototype.euclideanDistance q emb
  else .error (.valueError ("Unsupported distance metric: " ++ distance_metric))

/-- The scan loop of `identify`: iterate over the template entries in order,
keeping the running `best_match` (initially `None`) and `best_distance`
(initially `float('inf')`), updating on strict improvement; a raised exception
aborts the loop. -/
noncomputable def scanTemplates (distance_metric : String) (q : List ℝ) :
    List TemplateEntry → Option String → WithTop ℝ →
    Except PyErr (Option String × WithTop ℝ)
  | [], best_match, best_distance => .ok (best_match, best_distance)
  | t :: rest, best_match, best_distance =>
    match metricDistance distance_metric q t.embedding with
    | .error e => .error e
    | .ok d =>
      if (d : WithTop ℝ) < best_distance then
        scanTemplates distance_metric q rest (some t.person_id) (d : WithTop ℝ)
      else
        scanTemplates distance_metric q rest best_match best_distance

/-- `self.names.get(best_match, "Unknown")`: dict lookup with default, where
the key may be `None` (which is never a key of `names`, whose keys are person
id strings). -/
def namesGet (names : List (String × String)) (k : Option String) : String :=
  match k with
  | none => "Unknown"
  | some s =>
    match names.find? (fun pr => pr.1 == s) with
    | some pr => pr.2
    | none => "Unknown"

/-- The body of `identify`'s `try` block: obtain the query embedding from the
provider, scan the store, apply the threshold gate, and build the match
result. An exception anywhere in the block is an `.error`. -/
noncomputable def AlphaPrototype.identifyE (self : AlphaPrototype)
    (provider : String → Except PyErr (List ℝ)) (query_image_path : String)
    (threshold : Option ℝ) : Except PyErr MatchResult :=
  match provider query_image_path with
  | .error e => .error e
  | .ok query_embedding =>
    match scanTemplates self.distance_metric query_embedding
        (self.template_embeddings.map Prod.snd) none ⊤ with
    | .error e => .error e
    | .ok (best_match, best_distance) =>
      let match_accepted : Bool :=
        match threshold with
        | none => true
        | some t => if (t : WithTop ℝ) < best_distance then false else true
      .ok { person_id := if match_accepted then best_match else none
            name := if match_accepted then namesGet self.names best_match
                    else "No match"
            distance := some best_distance
            match_accepted := match_accepted }

/-- `AlphaPrototype.identify`: the `try` block, with the `except Exception`
handler converting any raised exception into the soft error result
`{"person_id": None, "name": "Error", "distance": None,
"match_accepted": False}`. -/
noncomputable def AlphaPrototype.identify (self : AlphaPrototype)
    (provider : String → Except PyErr (List ℝ)) (query_image_path : String)
    (threshold : Option ℝ) : MatchResult :=
  match AlphaPrototype.identifyE self provider query_image_path threshold with
  | .ok r => r
  | .error _ =>
    { person_id := none, name := "Error", distance := none,
      match_accepted := false }

/-- The inner loop of `_load_templates` for one person: embed each listed
image in order, building the `f"{person_id}_{i}"`-keyed entries; a provider
failure propagates (aborting the enclosing construction). -/
def loadPersonImages (provider : String → Except PyErr (List ℝ))
    (person_id : String) : List String → Nat →
    Except PyErr (List (String × TemplateEntry))
  | [], _ => .ok []
  | img :: rest, i =>
    match provider img with
    | .error e => .error e
    | .ok emb =>
      match loadPersonImages provider person_id rest (i + 1) with
      | .error e => .error e
      | .ok tail =>
        .ok ((person_id ++ "_" ++ toString i,
              { embedding := emb, person_id := person_id,
                image_path := img }) :: tail)

/-- The outer loop of `_load_templates`: process every person of the template
manifest in order; any provider failure propagates. -/
def loadTemplates (provider : String → Except PyErr (List ℝ)) :
    List (String × List String) → Except PyErr (List (String × TemplateEntry))
  | [] => .ok []
  | (pid, imgs) :: rest =>
    match loadPersonImages provider pid imgs 0 with
    | .error e => .error e
    | .ok entries =>
      match loadTemplates provider rest with
      | .error e => .error e
      | .ok tailEntries => .ok (entries ++ tailEntries)

/-- `AlphaPrototype.__init__` (with the manifest file already parsed into
`template_data`): store the configuration and eagerly load every template;
a provider failure propagates out of the constructor, so no object — and in
particular no partial store — is ever produced. -/
def mkPrototype (template_data : List (String × List String))
    (provider : String → Except PyErr (List ℝ))
    (model_name distance_metric : String) : Except PyErr AlphaPrototype :=
  match loadTemplates provider template_data with
  | .error e => .error e
  | .ok embs =>
    .ok { model_name := model_name
          distance_metric := distance_metric
          template_db := template_data
          template_embeddings := embs
          names := template_data.map (fun pr => (pr.1, pr.1)) }

/-- One row appended to `self.results` by `ExperimentRunner.run`. -/
structure EvalRecord where
  probe_image : String
  true_person_id : String
  predicted_person_id : Option String
  distance : Option (WithTop ℝ)
  match_accepted : Bool
  error : Option String

/-- The `try/except` around one probe in `ExperimentRunner.run`: on a normal
matcher result, record its fields with an empty error column; on a raised
exception, record nulled prediction fields, `match_accepted = False`, and the
exception message. -/
def recordOfCall (true_person_id img : String)
    (call : Except PyErr MatchResult) : EvalRecord :=
  match call with
  | .ok result =>
    { probe_image := img
      true_person_id := true_person_id
      predicted_person_id := result.person_id
      distance := result.distance
      match_accepted := result.match_accepted
      error := none }
  | .error e =>
    { probe_image := img
      true_person_id := true_person_id
      predicted_person_id := none
      distance := none
      match_accepted := false
      error := some e.msg }

/-- The `ExperimentRunner` object's state: the probe manifest loaded in
`__init__` and the `self.results` accumulator (initially empty, and never
cleared by `run`). -/
structure Runner where
  probe_data : List (String × List String)
  results : List EvalRecord

/-- A fresh runner as produced by `ExperimentRunner.__init__` (with the probe
manifest already parsed): `self.results = []`. -/
def Runner.init (probe_data : List (String × List String)) : Runner :=
  { probe_data := probe_data, results := [] }

/-- The probe loop of `run`: for each true person id, for each probe image in
order, call `prototype.identify` and append one record. `identify` never
raises (its body is wrapped in a catch-all), so the call always reaches
`recordOfCall` as `.ok`. -/
noncomputable def runRecords (p : AlphaPrototype)
    (provider : String → Except PyErr (List ℝ)) (threshold : Option ℝ) :
    List (String × List String) → List EvalRecord
  | [] => []
  | (true_person_id, imgs) :: rest =>
    imgs.map (fun img =>
      recordOfCall true_person_id img
        (.ok (AlphaPrototype.identify p provider img threshold)))
      ++ runRecords p provider threshold rest

/-- What one call to `ExperimentRunner.run` returns and persists: the updated
runner state, the rows of `results_df` (built from `self.results` after the
appends, so it carries every accumulated record), and the name of the emitted
results artifact. -/
structure RunOutput where
  runner : Runner
  df : List EvalRecord
  artifact : String

/-- `ExperimentRunner.run`: construct the `AlphaPrototype` (a template-load
failure propagates out of `run`), process every probe appending to
`self.results`, build `results_df` from the accumulated records, and emit the
artifact `f"results_{model_name}_{distance_metric}.csv"`. -/
noncomputable def ExperimentRunner.run (r : Runner)
    (template_data : List (String × List String))
    (provider : String → Except PyErr (List ℝ))
    (model_name distance_metric : String) (threshold : Option ℝ) :
    Except PyErr RunOutput :=
  match mkPrototype template_data provider model_name distance_metric with
  | .error e => .error e
  | .ok p =>
    let newResults :=
      r.results ++ runRecords p provider threshold r.probe_data
    .ok { runner := { probe_data := r.probe_data, results := newResults }
          df := newResults
          artifact :=
            "results_" ++ model_name ++ "_" ++ distance_metric ++ ".csv" }

/-- `results_df["true_person_id"] == results_df["predicted_person_id"]` for
one row: pandas elementwise equality, where a `None` prediction compares
unequal to any string. -/
def recCorrect (r : EvalRecord) : Bool :=
  match r.predicted_person_id with
  | some pid => r.true_person_id == pid
  | none => false

/-- `accepted.sum()` in `_calculate_metrics`: the number of rows with
`match_accepted = True`. -/
def acceptedCount (rs : List EvalRecord) : Nat :=
  rs.countP (fun r => r.match_accepted)

/-- `accuracy = correct.mean() * 100`. -/
def accuracy (rs : List EvalRecord) : ℚ :=
  ((rs.countP recCorrect : ℚ) / (rs.length : ℚ)) * 100

/-- `precision = (correct & accepted).sum() / accepted.sum() * 100 if
accepted.sum() > 0 else 0`. -/
def precision (rs : List EvalRecord) : ℚ :=
  if 0 < acceptedCount rs then
    ((rs.countP (fun r => recCorrect r && r.match_accepted) : ℚ)
        / (acceptedCount rs : ℚ)) * 100
  else 0

/-- `rejection_rate = (~accepted).mean() * 100`. -/
def rejectionRate (rs : List EvalRecord) : ℚ :=
  ((rs.countP (fun r => !r.match_accepted) : ℚ) / (rs.length : ℚ)) * 100

/-- `true_negatives = (~correct & ~accepted).sum()`: the rejected-and-wrong
confusion quadrant. -/
def trueNegatives (rs : List EvalRecord) : Nat :=
  rs.countP (fun r => !recCorrect r && !r.match_accepted)

/-- The running minimum reached by the scan loop over the successive computed
distances, starting from `float('inf')`. -/
noncomputable def listMin : List ℝ → WithTop ℝ
  | [] => ⊤
  | d :: rest => min (d : WithTop ℝ) (listMin rest)

/-! ### Helper lemmas -/

/-- Any provider failure on the query image is absorbed by `identify`'s
catch-all handler into the soft error result. -/
lemma identify_soft_of_provider_error (p : AlphaPrototype)
    (provider : String → Except PyErr (List ℝ)) (path : String)
    (threshold : Option ℝ) (e : PyErr) (h : provider path = .error e) :
    AlphaPrototype.identify p provider path threshold =
      { person_id := none, name := "Error", distance := none,
        match_accepted := false } := by
  simp only [AlphaPrototype.identify, AlphaPrototype.identifyE, h]

/-- If any listed image of one person fails to embed, loading that person's
images raises. -/
lemma loadPersonImages_err (provider : String → Except PyErr (List ℝ))
    (pid : String) (imgs : List String)
    (h : ∃ img ∈ imgs, ∃ e, provider img = .error e) :
    ∀ i : Nat, ∃ e, loadPersonImages provider pid imgs i = .error e := by
  induction imgs with
  | nil => rcases h with ⟨img, hm, _⟩; cases hm
  | cons a rest ih =>
    intro i
    cases hpa : provider a with
    | error e => exact ⟨e, by simp [loadPersonImages, hpa]⟩
    | ok emb =>
      have hrest : ∃ img ∈ rest, ∃ e, provider img = .error e := by
        rcases h with ⟨img, hm, e, he⟩
        rcases List.mem_cons.mp hm with rfl | hm'
        · rw [hpa] at he; cases he
        · exact ⟨img, hm', e, he⟩
      rcases ih hrest (i + 1) with ⟨e, he⟩
      exact ⟨e, by simp [loadPersonImages, hpa, he]⟩

/-- If any listed image of any person fails to embed, the whole template load
raises. -/
lemma loadTemplates_err (provider : String → Except PyErr (List ℝ))
    (data : List (String × List String))
    (h : ∃ pr ∈ data, ∃ img ∈ pr.2, ∃ e, provider img = .error e) :
    ∃ e, loadTemplates provider data = .error e := by
  induction data with
  | nil => rcases h with ⟨pr, hm, _⟩; cases hm
  | cons hd rest ih =>
    obtain ⟨pid, imgs⟩ := hd
    by_cases hfail : ∃ img ∈ imgs, ∃ e, provider img = .error e
    · rcases loadPersonImages_err provider pid imgs hfail 0 with ⟨e, he⟩
      exact ⟨e, by simp [loadTemplates, he]⟩
    · cases hload : loadPersonImages provider pid imgs 0 with
      | error e => exact ⟨e, by simp [loadTemplates, hload]⟩
      | ok entries =>
        have hrest : ∃ pr ∈ rest, ∃ img ∈ pr.2, ∃ e, provider img = .error e := by
          rcases h with ⟨pr, hm, hin⟩
          rcases List.mem_cons.mp hm with rfl | hm'
          · exact absurd hin hfail
          · exact ⟨pr, hm', hin⟩
        rcases ih hrest with ⟨e, he⟩
        exact ⟨e, by simp [loadTemplates, hload, he]⟩

/-! ### Claims -/

/-- Claim C2: for every query for which obtaining the query embedding fails,
`identify` does not propagate the failure; it returns a match result with
person id none, display name "Error", distance absent, and match-accepted
false. -/
theorem identify_provider_failure_fail_soft (p : AlphaPrototype)
    (provider : String → Except PyErr (List ℝ)) (path : String)
    (threshold : Option ℝ) (e : PyErr) (h : provider path = .error e) :
    AlphaPrototype.identify p provider path threshold =
      { person_id := none, name := "Error", distance := none,
        match_accepted := false } :=
  identify_soft_of_provider_error p provider path threshold e h

/-- A template store with no entries (and no enrolled people). -/
def pEmptyW : AlphaPrototype :=
  { model_name := "VGG-Face", distance_metric := "cosine", template_db := [],
    template_embeddings := [], names := [] }

/-- A provider that fails on every image path. -/
def provFailW : String → Except PyErr (List ℝ) :=
  fun _ => .error (.providerError "embedding failed")

/-- Witness for claim C2 at a concrete prototype, provider and probe. -/
theorem identify_provider_failure_fail_soft_witness :
    AlphaPrototype.identify pEmptyW provFailW "probe.jpg" none =
      { person_id := none, name := "Error", distance := none,
        match_accepted := false } :=
  identify_provider_failure_fail_soft pEmptyW provFailW "probe.jpg" none
    (.providerError "embedding failed") rfl

/-- Claim C3: if the embedding provider fails for any listed image of any
person in the template manifest, the failure propagates and the whole
construction aborts; since `mkPrototype` then returns `.error`, no (partial)
store is exposed as ready. -/
theorem load_templates_propagates_failure
    (template_data : List (String × List String))
    (provider : String → Except PyErr (List ℝ))
    (model_name distance_metric : String)
    (h : ∃ pr ∈ template_data, ∃ img ∈ pr.2, ∃ e, provider img = .error e) :
    ∃ e, mkPrototype template_data provider model_name distance_metric
      = .error e := by
  rcases loadTemplates_err provider template_data h with ⟨e, he⟩
  exact ⟨e, by simp [mkPrototype, he]⟩

/-- Witness for claim C3 at a concrete one-person manifest whose single image
fails to embed. -/
theorem load_templates_propagates_failure_witness :
    ∃ e, mkPrototype [("alice", ["a0.jpg"])] provFailW "VGG-Face" "cosine"
      = .error e :=
  load_templates_propagates_failure [("alice", ["a0.jpg"])] provFailW
    "VGG-Face" "cosine"
    ⟨("alice", ["a0.jpg"]), by simp, "a0.jpg", by simp,
     .providerError "embedding failed", rfl⟩

/-- Claim C10: a probe whose processing raises at the evaluator level yields
a record with match-accepted actually false (not absent), which counts into
the rejection-rate numerator and into the rejected-and-wrong confusion
quadrant exactly like a threshold-rejected probe. -/
theorem errored_probe_counted_as_rejected (tid img : String) (e : PyErr)
    (rest : List EvalRecord) :
    (recordOfCall tid img (.error e)).match_accepted = false ∧
    recCorrect (recordOfCall tid img (.error e)) = false ∧
    (recordOfCall tid img (.error e) :: rest).countP
        (fun r => !r.match_accepted)
      = rest.countP (fun r => !r.match_accepted) + 1 ∧
    trueNegatives (recordOfCall tid img (.error e) :: rest)
      = trueNegatives rest + 1 := by
  refine ⟨rfl, rfl, ?_, ?_⟩
  · simp [recordOfCall, List.countP_cons]
  · simp [trueNegatives, recordOfCall, recCorrect, List.countP_cons]

/-- Witness for claim C10 at a concrete errored probe. -/
theorem errored_probe_counted_as_rejected_witness :
    (recordOfCall "alice" "p0.jpg"
        (.error (.providerError "boom"))).match_accepted = false ∧
    recCorrect (recordOfCall "alice" "p0.jpg"
        (.error (.providerError "boom"))) = false ∧
    (recordOfCall "alice" "p0.jpg" (.error (.providerError "boom")) :: []).countP
        (fun r => !r.match_accepted)
      = ([] : List EvalRecord).countP (fun r => !r.match_accepted) + 1 ∧
    trueNegatives (recordOfCall "alice" "p0.jpg"
        (.error (.providerError "boom")) :: [])
      = trueNegatives [] + 1 :=
  errored_probe_counted_as_rejected "alice" "p0.jpg" (.providerError "boom") []

/-- Claim C7: precision is the fraction (as a percentage) of the accepted
records whose predicted person id equals the true person id, and it is 0 —
a value, not a division-by-zero failure — when no record is accepted. -/
theorem precision_fraction_of_accepted (rs : List EvalRecord) :
    (acceptedCount rs = 0 → precision rs = 0) ∧
    (0 < acceptedCount rs →
      precision rs =
        (((rs.filter (fun r => r.match_accepted)).countP recCorrect : ℚ)
          / ((rs.filter (fun r => r.match_accepted)).length : ℚ)) * 100) := by
  constructor
  · intro h
    simp [precision, h]
  · intro h
    have h1 : (rs.filter (fun r => r.match_accepted)).length = acceptedCount rs :=
      (List.countP_eq_length_filter _ _).symm
    have h2 : (rs.filter (fun r => r.match_accepted)).countP recCorrect
        = rs.countP (fun r => recCorrect r && r.match_accepted) :=
      List.countP_filter ..
    rw [precision, if_pos h, h1, h2]

/-- A record of an accepted, correctly identified probe. -/
def rAccW : EvalRecord :=
  { probe_image := "p1.jpg", true_person_id := "alice",
    predicted_person_id := some "alice", distance := none,
    match_accepted := true, error := none }

/-- Witness for claim C7 on a one-record list with an accepted match. -/
theorem precision_fraction_of_accepted_witness :
    0 < acceptedCount [rAccW] ∧
    precision [rAccW] =
      ((([rAccW].filter (fun r => r.match_accepted)).countP recCorrect : ℚ)
        / ((([rAccW].filter (fun r => r.match_accepted)).length : ℚ))) * 100 :=
  ⟨by decide, (precision_fraction_of_accepted [rAccW]).2 (by decide)⟩

/-- Claim C9: `run` never resets `self.results`, so the table written by a
second call on the same runner is the first call's table followed by the
records generated from the second call's probe scan. -/
theorem results_accumulate_across_runs
    (r0 : Runner) (td1 td2 : List (String × List String))
    (prov1 prov2 : String → Except PyErr (List ℝ))
    (mn1 dm1 mn2 dm2 : String) (th1 th2 : Option ℝ) (out1 out2 : RunOutput)
    (h1 : ExperimentRunner.run r0 td1 prov1 mn1 dm1 th1 = .ok out1)
    (h2 : ExperimentRunner.run out1.runner td2 prov2 mn2 dm2 th2 = .ok out2) :
    ∃ p2, mkPrototype td2 prov2 mn2 dm2 = .ok p2 ∧
      out2.df = out1.df ++ runRecords p2 prov2 th2 out1.runner.probe_data := by
  unfold ExperimentRunner.run at h1 h2
  cases hmk1 : mkPrototype td1 prov1 mn1 dm1 with
  | error e => rw [hmk1] at h1; cases h1
  | ok p1 =>
    rw [hmk1] at h1
    cases hmk2 : mkPrototype td2 prov2 mn2 dm2 with
    | error e => rw [hmk2] at h2; cases h2
    | ok p2 =>
      rw [hmk2] at h2
      refine ⟨p2, rfl, ?_⟩
      injection h1 with h1'
      injection h2 with h2'
      rw [← h2', ← h1']

/-- Claim C5 (amended): querying an empty template store raises no error and
returns person id none, but the distance field is present and equal to
`float('inf')` (not absent), and match-accepted is true exactly when no
threshold was given (display name "Unknown" then, "No match" with a
threshold). -/
theorem identify_empty_store (p : AlphaPrototype)
    (provider : String → Except PyErr (List ℝ)) (path : String)
    (threshold : Option ℝ) (q : List ℝ)
    (hq : provider path = .ok q)
    (hempty : p.template_embeddings = []) :
    AlphaPrototype.identify p provider path threshold =
      { person_id := none
        name := match threshold with | none => "Unknown" | some _ => "No match"
        distance := some ⊤
        match_accepted := threshold.isNone } := by
  unfold AlphaPrototype.identify AlphaPrototype.identifyE
  rw [hq, hempty]
  cases threshold with
  | none => simp [scanTemplates, namesGet]
  | some t => simp [scanTemplates, WithTop.coe_lt_top]

/-- A provider that succeeds on every image path. -/
def provOkW : String → Except PyErr (List ℝ) := fun _ => .ok [1]

/-- Counterexample to claim C5 as stated: on an empty store the returned
distance is `float('inf')`, which is present, not absent (and with no
threshold the result is even marked accepted). -/
theorem identify_empty_store_distance_present :
    AlphaPrototype.identify pEmptyW provOkW "q.jpg" none =
      { person_id := none, name := "Unknown", distance := some ⊤,
        match_accepted := true } ∧
    (AlphaPrototype.identify pEmptyW provOkW "q.jpg" none).distance ≠ none := by
  have h1 : AlphaPrototype.identify pEmptyW provOkW "q.jpg" none =
      { person_id := none, name := "Unknown", distance := some ⊤,
        match_accepted := true } := rfl
  refine ⟨h1, ?_⟩
  rw [h1]
  simp

/-- Witness for the amended claim C5 at a concrete empty store and a
threshold-free query. -/
theorem identify_empty_store_witness :
    AlphaPrototype.identify pEmptyW provOkW "probe2.jpg" none =
      { person_id := none, name := "Unknown", distance := some ⊤,
        match_accepted := true } :=
  identify_empty_store pEmptyW provOkW "probe2.jpg" none [1] rfl rfl

/-- Claim C4 (amended): an unsupported distance-metric name is not rejected at
configuration time — construction succeeds — and the `ValueError` it triggers
is raised only inside `identify`'s scan over a non-empty store, where the
catch-all handler converts it into the soft "Error" match result instead of
surfacing a configuration failure. -/
theorem unsupported_metric_errors_mid_scan (p : AlphaPrototype)
    (provider : String → Except PyErr (List ℝ)) (path : String)
    (threshold : Option ℝ) (q : List ℝ)
    (hq : provider path = .ok q)
    (hm1 : p.distance_metric ≠ "cosine") (hm2 : p.distance_metric ≠ "euclidean")
    (hne : p.template_embeddings ≠ []) :
    AlphaPrototype.identify p provider path threshold =
      { person_id := none, name := "Error", distance := none,
        match_accepted := false } := by
  unfold AlphaPrototype.identify AlphaPrototype.identifyE
  rw [hq]
  obtain ⟨hd, tl, hcons⟩ := List.exists_cons_of_ne_nil hne
  rw [hcons]
  simp [scanTemplates, metricDistance, hm1, hm2]

/-- The prototype built (without complaint) from a one-person manifest with the
unsupported metric name "manhattan". -/
def pManhattanW : AlphaPrototype :=
  { model_name := "VGG-Face", distance_metric := "manhattan",
    template_db := [("alice", ["t0.jpg"])],
    template_embeddings :=
      [("alice_0", { embedding := [1], person_id := "alice",
                     image_path := "t0.jpg" })],
    names := [("alice", "alice")] }

/-- Counterexample to claim C4 as stated: with the unsupported metric
"manhattan", construction succeeds (no configuration-time failure at all), and
the failure instead shows up mid-scan inside `identify`, already converted to
the soft "Error" result. -/
theorem unsupported_metric_no_config_failure :
    mkPrototype [("alice", ["t0.jpg"])] provOkW "VGG-Face" "manhattan"
      = .ok pManhattanW ∧
    AlphaPrototype.identify pManhattanW provOkW "q.jpg" none =
      { person_id := none, name := "Error", distance := none,
        match_accepted := false } :=
  ⟨rfl, rfl⟩

/-- Witness for the amended claim C4 at the concrete "manhattan" prototype. -/
theorem unsupported_metric_errors_mid_scan_witness :
    AlphaPrototype.identify pManhattanW provOkW "probe3.jpg" none =
      { person_id := none, name := "Error", distance := none,
        match_accepted := false } :=
  unsupported_metric_errors_mid_scan pManhattanW provOkW "probe3.jpg" none [1]
    rfl (by decide) (by decide) (by simp [pManhattanW])

/-- Claim C6 (amended): a length mismatch between compared embeddings raises
inside the cosine distance always, and inside the euclidean distance only when
neither operand has length one — when one does, numpy broadcasting silently
computes a value; and even a raised mismatch inside `identify`'s scan is
caught by the catch-all handler and converted to the soft "Error" result
rather than surfaced to the caller as a hard failure. -/
theorem dimension_mismatch_is_soft :
    (∀ a b : List ℝ, a.length ≠ b.length →
      AlphaPrototype.cosineDistance a b =
        .error (.valueError "shapes not aligned")) ∧
    (∀ a b : List ℝ, a.length ≠ b.length → b.length ≠ 1 → a.length ≠ 1 →
      AlphaPrototype.euclideanDistance a b =
        .error (.valueError "operands could not be broadcast together")) ∧
    (∀ a b : List ℝ, a.length ≠ b.length → b.length = 1 →
      ∃ v, AlphaPrototype.euclideanDistance a b = .ok v) ∧
    (∀ (p : AlphaPrototype) (provider : String → Except PyErr (List ℝ))
      (path : String) (threshold : Option ℝ) (q : List ℝ) (k : String)
      (te : TemplateEntry) (rest : List (String × TemplateEntry)),
      provider path = .ok q → p.distance_metric = "cosine" →
      p.template_embeddings = (k, te) :: rest →
      q.length ≠ te.embedding.length →
      AlphaPrototype.identify p provider path threshold =
        { person_id := none, name := "Error", distance := none,
          match_accepted := false }) := by
  refine ⟨?_, ?_, ?_, ?_⟩
  · intro a b h
    simp [AlphaPrototype.cosineDistance, np_dot, h]
  · intro a b h hb ha
    simp [AlphaPrototype.euclideanDistance, np_sub, h, hb, ha]
  · intro a b h hb
    have ha : a.length ≠ 1 := by rw [hb] at h; exact h
    refine ⟨np_norm (a.map (fun x => x - b.headI)), ?_⟩
    simp [AlphaPrototype.euclideanDistance, np_sub, h, hb, ha]
  · intro p provider path threshold q k te rest hq hmetric hcons hlen
    unfold AlphaPrototype.identify AlphaPrototype.identifyE
    rw [hq, hcons]
    simp [scanTemplates, metricDistance, hmetric,
      AlphaPrototype.cosineDistance, np_dot, hlen]

/-- Counterexample to claim C6 as stated: the euclidean distance between the
length-two embedding `[0, 0]` and the length-one embedding `[1]` is not a
failure at all — numpy broadcasting silently yields `sqrt 2`. -/
theorem euclidean_broadcast_silently_succeeds :
    AlphaPrototype.euclideanDistance [0, 0] [1] = .ok (Real.sqrt 2) := by
  have hsub : np_sub [0, 0] [1] = .ok [-1, -1] := by
    norm_num [np_sub]
  simp only [AlphaPrototype.euclideanDistance, hsub]
  have hnorm : np_norm [-1, -1] = Real.sqrt 2 := by
    rw [np_norm]
    norm_num
  rw [hnorm]

/-- A store holding one length-two template, to be queried with a length-three
embedding. -/
def pMismatchW : AlphaPrototype :=
  { model_name := "VGG-Face", distance_metric := "cosine",
    template_db := [("alice", ["t0.jpg"])],
    template_embeddings :=
      [("alice_0", { embedding := [1, 0], person_id := "alice",
                     image_path := "t0.jpg" })],
    names := [("alice", "alice")] }

/-- A provider returning a length-three embedding for every image. -/
def prov3W : String → Except PyErr (List ℝ) := fun _ => .ok [1, 2, 3]

/-- Witness for the amended claim C6: a concrete cosine mismatch raises, and a
concrete mismatched query against a real store comes back as the soft "Error"
result. -/
theorem dimension_mismatch_is_soft_witness :
    AlphaPrototype.cosineDistance [1] [1, 2] =
      .error (.valueError "shapes not aligned") ∧
    AlphaPrototype.identify pMismatchW prov3W "q.jpg" none =
      { person_id := none, name := "Error", distance := none,
        match_accepted := false } :=
  ⟨dimension_mismatch_is_soft.1 [1] [1, 2] (by decide),
   dimension_mismatch_is_soft.2.2.2 pMismatchW prov3W "q.jpg" none [1, 2, 3]
     "alice_0"
     { embedding := [1, 0], person_id := "alice", image_path := "t0.jpg" } []
     rfl rfl rfl (by decide)⟩

/-- If the provider fails on every probe image, every generated record has
nulled prediction fields, a false accepted flag — and an empty error field,
because the Matcher absorbs the failure before the evaluator's handler can
see it. -/
lemma runRecords_all_failed (p : AlphaPrototype)
    (provider : String → Except PyErr (List ℝ)) (th : Option ℝ)
    (probes : List (String × List String))
    (hfail : ∀ pr ∈ probes, ∀ img ∈ pr.2, ∃ e, provider img = .error e) :
    ∀ rec ∈ runRecords p provider th probes,
      rec.predicted_person_id = none ∧ rec.distance = none ∧
      rec.match_accepted = false ∧ rec.error = none := by
  induction probes with
  | nil => intro rec hrec; simp [runRecords] at hrec
  | cons hd rest ih =>
    obtain ⟨tid, imgs⟩ := hd
    intro rec hrec
    rw [runRecords] at hrec
    rcases List.mem_append.mp hrec with hmem | hmem
    · rcases List.mem_map.mp hmem with ⟨img, himg, rfl⟩
      obtain ⟨e, he⟩ := hfail (tid, imgs) (List.mem_cons_self _ _) img himg
      rw [identify_soft_of_provider_error p provider img th e he]
      simp [recordOfCall]
    · exact ih (fun pr hpr => hfail pr (List.mem_cons_of_mem _ hpr)) rec hmem

/-- The probe scan of a probe set with at least one listed image produces at
least one record. -/
lemma runRecords_ne_nil (p : AlphaPrototype)
    (provider : String → Except PyErr (List ℝ)) (th : Option ℝ)
    (probes : List (String × List String))
    (h : ∃ pr ∈ probes, pr.2 ≠ []) :
    runRecords p provider th probes ≠ [] := by
  induction probes with
  | nil => rcases h with ⟨pr, hm, _⟩; cases hm
  | cons hd rest ih =>
    obtain ⟨tid, imgs⟩ := hd
    rw [runRecords]
    rcases h with ⟨pr, hm, hne⟩
    rcases List.mem_cons.mp hm with rfl | hm'
    · intro hcontra
      rcases List.append_eq_nil.mp hcontra with ⟨hmap, _⟩
      exact hne (List.map_eq_nil_iff.mp hmap)
    · intro hcontra
      rcases List.append_eq_nil.mp hcontra with ⟨_, htail⟩
      exact ih ⟨pr, hm', hne⟩ htail

/-- A record table in which no row has a prediction scores accuracy zero. -/
lemma accuracy_zero_of_no_prediction (rs : List EvalRecord)
    (h : ∀ rec ∈ rs, rec.predicted_person_id = none) : accuracy rs = 0 := by
  have hcount : rs.countP recCorrect = 0 := by
    rw [List.countP_eq_zero]
    intro rec hrec
    simp [recCorrect, h rec hrec]
  simp [accuracy, hcount]

/-- Claim C8 (amended): on a probe set whose every image fails to embed, the
batch run still completes and emits its results artifact, with accuracy 0%
and every record rejected — but each record's error field is empty (none),
not non-empty, because the Matcher converts provider failures into soft
results before the evaluator's error column is ever filled. -/
theorem run_all_probes_fail_soft (r : Runner)
    (td : List (String × List String))
    (provider : String → Except PyErr (List ℝ)) (mn dm : String)
    (th : Option ℝ) (p : AlphaPrototype)
    (hfresh : r.results = [])
    (hmk : mkPrototype td provider mn dm = .ok p)
    (hfail : ∀ pr ∈ r.probe_data, ∀ img ∈ pr.2, ∃ e, provider img = .error e)
    (hne : ∃ pr ∈ r.probe_data, pr.2 ≠ []) :
    ∃ out, ExperimentRunner.run r td provider mn dm th = .ok out ∧
      out.df ≠ [] ∧
      (∀ rec ∈ out.df, rec.predicted_person_id = none ∧ rec.distance = none ∧
        rec.match_accepted = false ∧ rec.error = none) ∧
      accuracy out.df = 0 ∧
      out.artifact = "results_" ++ mn ++ "_" ++ dm ++ ".csv" := by
  have hdf : ExperimentRunner.run r td provider mn dm th =
      .ok { runner := { probe_data := r.probe_data
                        results := runRecords p provider th r.probe_data }
            df := runRecords p provider th r.probe_data
            artifact := "results_" ++ mn ++ "_" ++ dm ++ ".csv" } := by
    unfold ExperimentRunner.run
    rw [hmk, hfresh]
    simp
  refine ⟨_, hdf, runRecords_ne_nil p provider th r.probe_data hne,
    runRecords_all_failed p provider th r.probe_data hfail, ?_, rfl⟩
  exact accuracy_zero_of_no_prediction _
    (fun rec hrec =>
      (runRecords_all_failed p provider th r.probe_data hfail rec hrec).1)

/-- A one-person template manifest whose single template image embeds fine. -/
def tdW : List (String × List String) := [("alice", ["t0.jpg"])]

/-- A provider that embeds the template image `t0.jpg` and fails on every
other image (in particular on every probe). -/
def provW : String → Except PyErr (List ℝ) :=
  fun s => if s == "t0.jpg" then .ok [1] else .error (.providerError "embed fail")

/-- A fresh runner over a one-probe probe set. -/
def runnerW : Runner := { probe_data := [("alice", ["p0.jpg"])], results := [] }

/-- The record produced for the probe `p0.jpg` whose embedding fails: note the
empty error column. -/
def recW : EvalRecord :=
  { probe_image := "p0.jpg", true_person_id := "alice",
    predicted_person_id := none, distance := none, match_accepted := false,
    error := none }

/-- The prototype loaded from `tdW` by `provW`. -/
def p1W : AlphaPrototype :=
  { model_name := "VGG-Face", distance_metric := "cosine",
    template_db := tdW
    template_embeddings :=
      [("alice_0", { embedding := [1], person_id := "alice",
                     image_path := "t0.jpg" })],
    names := [("alice", "alice")] }

/-- Counterexample to claim C8 as stated: a concrete run in which the one
probe's embedding fails completes and emits its artifact, yet the produced
record's error field is none (empty), not non-empty. -/
theorem run_all_probes_fail_error_field_empty :
    ExperimentRunner.run runnerW tdW provW "VGG-Face" "cosine" none =
      .ok { runner := { probe_data := [("alice", ["p0.jpg"])], results := [recW] }
            df := [recW]
            artifact := "results_VGG-Face_cosine.csv" } ∧
    recW.error = none ∧ recW.match_accepted = false :=
  ⟨rfl, rfl, rfl⟩

/-- Witness for the amended claim C8 at the concrete all-probes-fail run. -/
theorem run_all_probes_fail_soft_witness :
    ∃ out, ExperimentRunner.run runnerW tdW provW "VGG-Face" "cosine" none
        = .ok out ∧
      out.df ≠ [] ∧
      (∀ rec ∈ out.df, rec.predicted_person_id = none ∧ rec.distance = none ∧
        rec.match_accepted = false ∧ rec.error = none) ∧
      accuracy out.df = 0 ∧
      out.artifact = "results_" ++ "VGG-Face" ++ "_" ++ "cosine" ++ ".csv" := by
  refine run_all_probes_fail_soft runnerW tdW provW "VGG-Face" "cosine" none
    p1W rfl rfl ?_ ⟨("alice", ["p0.jpg"]), by simp [runnerW], by simp⟩
  intro pr hpr img himg
  simp [runnerW] at hpr
  subst hpr
  simp at himg
  subst himg
  exact ⟨.providerError "embed fail", rfl⟩

/-- The output of a first run of `runnerW` (its one probe fails to embed). -/
def out1W : RunOutput :=
  { runner := { probe_data := [("alice", ["p0.jpg"])], results := [recW] }
    df := [recW]
    artifact := "results_VGG-Face_cosine.csv" }

/-- The output of a second, identical run on the state left by the first: the
first run's record appears again in front of the new one. -/
def out2W : RunOutput :=
  { runner := { probe_data := [("alice", ["p0.jpg"])], results := [recW, recW] }
    df := [recW, recW]
    artifact := "results_VGG-Face_cosine.csv" }

/-- Witness for claim C9 on two concrete successive runs of the same runner. -/
theorem results_accumulate_across_runs_witness :
    ∃ p2, mkPrototype tdW provW "VGG-Face" "cosine" = .ok p2 ∧
      out2W.df = out1W.df ++ runRecords p2 provW none out1W.runner.probe_data :=
  results_accumulate_across_runs runnerW tdW tdW provW provW "VGG-Face"
    "cosine" "VGG-Face" "cosine" none none out1W out2W rfl rfl

/-- The minimum of the initial best distance and the successively computed
distances is exactly what the scan loop's running minimum reaches, provided
every distance computation succeeds. -/
lemma scan_min {dm : String} {q : List ℝ} {entries : List TemplateEntry}
    {ds : List ℝ}
    (h : List.Forall₂ (fun t d => metricDistance dm q t.embedding = .ok d)
      entries ds) :
    ∀ (bm : Option String) (bd : WithTop ℝ),
      ∃ bm', scanTemplates dm q entries bm bd = .ok (bm', min bd (listMin ds)) := by
  induction h with
  | nil =>
    intro bm bd
    have hmin : min bd (listMin []) = bd := min_eq_left le_top
    exact ⟨bm, by rw [hmin, scanTemplates]⟩
  | @cons a b l1 l2 hrel hrest ih =>
    intro bm bd
    by_cases hlt : (b : WithTop ℝ) < bd
    · obtain ⟨bm', hscan⟩ := ih (some a.person_id) (b : WithTop ℝ)
      refine ⟨bm', ?_⟩
      rw [scanTemplates, hrel]
      simp only [if_pos hlt]
      rw [hscan, listMin]
      have heq : min (b : WithTop ℝ) (listMin l2)
          = min bd (min (b : WithTop ℝ) (listMin l2)) :=
        (min_eq_right (le_trans (min_le_left _ _) (le_of_lt hlt))).symm
      rw [← heq]
    · obtain ⟨bm', hscan⟩ := ih bm bd
      refine ⟨bm', ?_⟩
      rw [scanTemplates, hrel]
      simp only [if_neg hlt]
      rw [hscan, listMin]
      have heq : min bd (min (b : WithTop ℝ) (listMin l2))
          = min bd (listMin l2) := by
        rw [← min_assoc, min_eq_left (not_lt.mp hlt)]
      rw [heq]

/-- Whatever the scan loop returns is either its starting accumulator or the
person id and distance of one of the scanned entries. -/
lemma scan_achiever {dm : String} {q : List ℝ} {entries : List TemplateEntry}
    {ds : List ℝ}
    (h : List.Forall₂ (fun t d => metricDistance dm q t.embedding = .ok d)
      entries ds) :
    ∀ (bm : Option String) (bd : WithTop ℝ) (bm' : Option String)
      (bd' : WithTop ℝ),
      scanTemplates dm q entries bm bd = .ok (bm', bd') →
      (bm' = bm ∧ bd' = bd) ∨
      ∃ t d, (t, d) ∈ entries.zip ds ∧ bm' = some t.person_id ∧
        bd' = (d : WithTop ℝ) := by
  induction h with
  | nil =>
    intro bm bd bm' bd' hscan
    rw [scanTemplates] at hscan
    injection hscan with hpair
    injection hpair with h1 h2
    exact Or.inl ⟨h1.symm, h2.symm⟩
  | @cons a b l1 l2 hrel hrest ih =>
    intro bm bd bm' bd' hscan
    simp only [scanTemplates, hrel] at hscan
    by_cases hlt : (b : WithTop ℝ) < bd
    · rw [if_pos hlt] at hscan
      rcases ih _ _ _ _ hscan with ⟨h1, h2⟩ | ⟨t, d, hmem, h1, h2⟩
      · exact Or.inr ⟨a, b, List.mem_cons_self _ _, h1, h2⟩
      · exact Or.inr ⟨t, d, List.mem_cons_of_mem _ hmem, h1, h2⟩
    · rw [if_neg hlt] at hscan
      rcases ih _ _ _ _ hscan with hleft | ⟨t, d, hmem, h1, h2⟩
      · exact Or.inl hleft
      · exact Or.inr ⟨t, d, List.mem_cons_of_mem _ hmem, h1, h2⟩

/-- The running minimum is a lower bound of every computed distance. -/
lemma listMin_le {ds : List ℝ} {d' : ℝ} (h : d' ∈ ds) :
    listMin ds ≤ (d' : WithTop ℝ) := by
  induction ds with
  | nil => cases h
  | cons a rest ih =>
    rw [listMin]
    rcases List.mem_cons.mp h with rfl | h'
    · exact min_le_left _ _
    · exact le_trans (min_le_right _ _) (ih h')

/-- Over a non-empty distance list the running minimum stays below
`float('inf')`. -/
lemma listMin_lt_top {ds : List ℝ} (h : ds ≠ []) : listMin ds < ⊤ := by
  cases ds with
  | nil => exact absurd rfl h
  | cons a rest =>
    rw [listMin]
    exact lt_of_le_of_lt (min_le_left _ _) (WithTop.coe_lt_top a)

/-- Claim C1: against a non-empty store, with the query embedding obtained and
every per-entry distance computed, `identify` with a threshold below the
minimum distance rejects (person id none, display "No match") while still
reporting the best distance; with no threshold it accepts and returns the
person id of a template entry achieving the minimum distance. -/
theorem identify_nearest_and_threshold_gate (p : AlphaPrototype)
    (provider : String → Except PyErr (List ℝ)) (path : String)
    (q ds : List ℝ)
    (hq : provider path = .ok q)
    (hds : List.Forall₂
      (fun t d => metricDistance p.distance_metric q t.embedding = .ok d)
      (p.template_embeddings.map Prod.snd) ds)
    (hne : p.template_embeddings ≠ []) :
    (∀ t : ℝ, (t : WithTop ℝ) < listMin ds →
      AlphaPrototype.identify p provider path (some t) =
        { person_id := none, name := "No match",
          distance := some (listMin ds), match_accepted := false }) ∧
    (AlphaPrototype.identify p provider path none).match_accepted = true ∧
    ∃ te d, (te, d) ∈ (p.template_embeddings.map Prod.snd).zip ds ∧
      (AlphaPrototype.identify p provider path none).person_id
        = some te.person_id ∧
      (d : WithTop ℝ) = listMin ds ∧ ∀ d' ∈ ds, d ≤ d' := by
  obtain ⟨bm', hscan⟩ := scan_min hds none ⊤
  rw [min_eq_right le_top] at hscan
  refine ⟨?_, ?_, ?_⟩
  · intro t ht
    unfold AlphaPrototype.identify AlphaPrototype.identifyE
    rw [hq]
    simp [hscan, ht]
  · unfold AlphaPrototype.identify AlphaPrototype.identifyE
    rw [hq]
    simp [hscan]
  · have hdsne : ds ≠ [] := by
      intro hnil
      subst hnil
      rw [List.forall₂_nil_right_iff] at hds
      exact hne (List.map_eq_nil_iff.mp hds)
    rcases scan_achiever hds none ⊤ bm' (listMin ds) hscan with
      ⟨_, htop⟩ | ⟨te, d, hmem, h1, h2⟩
    · exact absurd htop (ne_of_lt (listMin_lt_top hdsne))
    · refine ⟨te, d, hmem, ?_, h2.symm, ?_⟩
      · unfold AlphaPrototype.identify AlphaPrototype.identifyE
        rw [hq]
        simp [hscan, h1]
      · intro d' hd'
        have hle := listMin_le hd'
        rw [h2] at hle
        exact_mod_cast hle

/-- A store with one enrolled person whose single template embedding is the
unit vector `[0, 1]`. -/
def pOneW : AlphaPrototype :=
  { model_name := "VGG-Face", distance_metric := "cosine",
    template_db := [("p1", ["i1.jpg"])],
    template_embeddings :=
      [("p1_0", { embedding := [0, 1], person_id := "p1",
                  image_path := "i1.jpg" })],
    names := [("p1", "p1")] }

/-- A provider returning the unit query embedding `[1, 0]`, at cosine
distance 1 from the stored template. -/
def provQW : String → Except PyErr (List ℝ) := fun _ => .ok [1, 0]

/-- Witness for claim C1 on a concrete one-template store: threshold 1/2 is
below the best distance 1, so the match is rejected with the distance still
reported; with no threshold the stored person is accepted. -/
theorem identify_nearest_and_threshold_gate_witness :
    AlphaPrototype.identify pOneW provQW "q.jpg" (some (1 / 2)) =
      { person_id := none, name := "No match",
        distance := some (listMin [1]), match_accepted := false } ∧
    (AlphaPrototype.identify pOneW provQW "q.jpg" none).match_accepted
      = true ∧
    (AlphaPrototype.identify pOneW provQW "q.jpg" none).person_id
      = some "p1" := by
  have hdot : np_dot [1, 0] [0, 1] = .ok 0 := by norm_num [np_dot]
  have hdist : metricDistance "cosine" [1, 0] [0, 1] = .ok 1 := by
    rw [metricDistance, if_pos rfl]
    simp only [AlphaPrototype.cosineDistance, hdot]
    norm_num
  have hds : List.Forall₂
      (fun t d =>
        metricDistance pOneW.distance_metric [1, 0] t.embedding = .ok d)
      (pOneW.template_embeddings.map Prod.snd) [1] := by
    simp only [pOneW, List.map_cons, List.map_nil]
    exact List.Forall₂.cons hdist List.Forall₂.nil
  obtain ⟨hA, hB, te, d, hmem, hpid, hmind, hall⟩ :=
    identify_nearest_and_threshold_gate pOneW provQW "q.jpg" [1, 0] [1] rfl
      hds (by simp [pOneW])
  have hl1 : listMin [1] = ((1 : ℝ) : WithTop ℝ) := by
    rw [listMin, listMin]
    exact min_eq_left le_top
  refine ⟨hA (1 / 2) ?_, hB, ?_⟩
  · rw [hl1]
    exact_mod_cast (by norm_num : (1 / 2 : ℝ) < 1)
  · rw [hpid]
    simp only [pOneW, List.map_cons, List.map_nil, List.zip_cons_cons,
      List.zip_nil_right, List.mem_singleton] at hmem
    injection hmem with hte hd
    rw [hte]
